import Mathlib

/-!
Verification of the glium text-rendering module (`src/lib.rs`) of
oriole-text-glium: the glyph-quad mesh builder `TextMesh::compute_buffers`,
the `TextMesh::set` update path, the solid-text shader contract, and the
atlas texture upload helpers.

Scalars (`f32` in the source) are modelled as rationals: the mesh builder
only moves scalar values around and never performs floating-point
arithmetic on them. The `u16` index elements are modelled as naturals
reduced modulo 2 ^ 16 exactly where the source casts with `as u16`.
-/

namespace OrioleGlium

/-- Modelled from the spec: the layout-engine collaborator's `Quad`
(`crate::rectangle`, not part of this module's source). It exposes four
corner points in a fixed winding order via `vertices()` and a scalar
`right()`. -/
structure Quad where
  vertices : Fin 4 → ℚ × ℚ
  right : ℚ

/-- Modelled from the spec: one entry of the layout-engine output, a pair
of quads `in_mesh` (destination space) and `in_atlas` (texture space). -/
structure GlyphLayout where
  in_mesh : Quad
  in_atlas : Quad

/-- Modelled from the spec: a laid-out glyph as produced by
`Font::layout_glyphs`; the mesh builder only reads its `layout`. -/
structure Glyph where
  layout : GlyphLayout

/-- `GlyphQuadVertex` from the source: a position and a texture
coordinate, both two-dimensional. -/
structure GlyphQuadVertex where
  position : ℚ × ℚ
  texture_coordinate : ℚ × ℚ

/-- The fixed index pattern `[0, 1, 2, 2, 3, 0]` from the source's inner
loop `for triangle_index in &[ 0,1,2,  2,3,0 ]`. -/
def trianglePattern : List ℕ := [0, 1, 2, 2, 3, 0]

/-- The builder state threaded through the loops of `compute_buffers`:
`(vertices, indices, width)`. -/
abbrev BuilderState := List GlyphQuadVertex × List ℕ × ℚ

/-- The body of the `for quad_vertex_index in 0..4` loop of
`compute_buffers`: push the six indices `vertices.len() + t` for `t` in
the triangle pattern (each cast `as u16`, i.e. reduced mod 2 ^ 16), set
`width` to the glyph's `in_mesh.right()`, then push the vertex whose
position is corner `quad_vertex_index` of `in_mesh` and whose texture
coordinate is the same corner of `in_atlas`. -/
def pushQuadVertex (glyph : Glyph) (quad_vertex_index : Fin 4) :
    BuilderState → BuilderState
  | (vertices, indices, _width) =>
    (vertices ++
       [{ position := glyph.layout.in_mesh.vertices quad_vertex_index,
          texture_coordinate :=
            glyph.layout.in_atlas.vertices quad_vertex_index }],
     indices ++ trianglePattern.map (fun t => (vertices.length + t) % 65536),
     glyph.layout.in_mesh.right)

/-- The body of the outer `for glyph in font.layout_glyphs(text.chars())`
loop: run `pushQuadVertex` for `quad_vertex_index = 0, 1, 2, 3`. -/
def pushGlyph (state : BuilderState) (glyph : Glyph) : BuilderState :=
  (List.finRange 4).foldl (fun s i => pushQuadVertex glyph i s) state

/-- `TextMesh::compute_buffers`, as a function of the glyph sequence the
font's layout engine yields for the text: starting from empty buffers and
`width = 0.0`, fold the glyph loop over the input. -/
def compute_buffers (glyphs : List Glyph) : BuilderState :=
  glyphs.foldl pushGlyph ([], [], 0)

/-- The four vertices the source pushes for one glyph, in corner order. -/
def glyphVertices (glyph : Glyph) : List GlyphQuadVertex :=
  (List.finRange 4).map fun i =>
    { position := glyph.layout.in_mesh.vertices i,
      texture_coordinate := glyph.layout.in_atlas.vertices i }

/-- The six (mod 2 ^ 16) index values pushed for one vertex-push whose
running vertex count is `base`. -/
def quadIndexBlock (base : ℕ) : List ℕ :=
  trianglePattern.map fun t => (base + t) % 65536

/-- All index values produced by `n` consecutive vertex-pushes starting
from running vertex count `base`. -/
def allIndices : ℕ → ℕ → List ℕ
  | _, 0 => []
  | base, n + 1 => quadIndexBlock base ++ allIndices (base + 1) n

lemma finRange_four : List.finRange 4 = [0, 1, 2, 3] := by decide

lemma pushGlyph_eq (V : List GlyphQuadVertex) (I : List ℕ) (w : ℚ)
    (g : Glyph) :
    pushGlyph (V, I, w) g =
      (V ++ glyphVertices g, I ++ allIndices V.length 4,
       g.layout.in_mesh.right) := by
  simp [pushGlyph, finRange_four, pushQuadVertex, glyphVertices,
    allIndices, quadIndexBlock, List.append_assoc]

lemma allIndices_add (a : ℕ) :
    ∀ (base b : ℕ),
      allIndices base a ++ allIndices (base + a) b = allIndices base (a + b) := by
  induction a with
  | zero => intro base b; simp [allIndices]
  | succ n ih =>
    intro base b
    have h1 : base + (n + 1) = (base + 1) + n := by omega
    have h2 : n + 1 + b = (n + b) + 1 := by omega
    simp only [allIndices, List.append_assoc, h1, h2, ih]

lemma compute_loop_eq (gs : List Glyph) :
    ∀ (V : List GlyphQuadVertex) (I : List ℕ) (w : ℚ),
      gs.foldl pushGlyph (V, I, w) =
        (V ++ gs.flatMap glyphVertices,
         I ++ allIndices V.length (4 * gs.length),
         gs.foldl (fun _ g => g.layout.in_mesh.right) w) := by
  induction gs with
  | nil => intro V I w; simp [allIndices]
  | cons g gs ih =>
    intro V I w
    rw [List.foldl_cons, pushGlyph_eq, ih]
    have hlen : (V ++ glyphVertices g).length = V.length + 4 := by
      simp [glyphVertices, finRange_four]
    have hmul : 4 * (g :: gs).length = 4 + 4 * gs.length := by
      simp [List.length_cons]; omega
    rw [hlen, hmul, ← allIndices_add 4 V.length (4 * gs.length)]
    simp [List.append_assoc]

lemma compute_buffers_vertices (gs : List Glyph) :
    (compute_buffers gs).1 = gs.flatMap glyphVertices := by
  rw [compute_buffers, compute_loop_eq]; simp

lemma compute_buffers_indices (gs : List Glyph) :
    (compute_buffers gs).2.1 = allIndices 0 (4 * gs.length) := by
  rw [compute_buffers, compute_loop_eq]; simp

lemma compute_buffers_width (gs : List Glyph) :
    (compute_buffers gs).2.2 =
      gs.foldl (fun _ g => g.layout.in_mesh.right) 0 := by
  rw [compute_buffers, compute_loop_eq]

lemma length_glyphVertices (g : Glyph) : (glyphVertices g).length = 4 := by
  simp [glyphVertices, finRange_four]

lemma length_flatMap_glyphVertices (gs : List Glyph) :
    (gs.flatMap glyphVertices).length = 4 * gs.length := by
  induction gs with
  | nil => rfl
  | cons g gs ih => simp [ih, length_glyphVertices]; omega

lemma length_allIndices : ∀ (n base : ℕ), (allIndices base n).length = 6 * n := by
  intro n
  induction n with
  | zero => intro base; rfl
  | succ m ih =>
    intro base
    simp [allIndices, quadIndexBlock, trianglePattern, ih]
    omega

lemma foldl_const_update (f : Glyph → ℚ) :
    ∀ (gs : List Glyph) (w : ℚ),
      gs.foldl (fun _ g => f g) w = ((gs.getLast?).map f).getD w := by
  intro gs
  induction gs with
  | nil => intro w; rfl
  | cons g gs ih =>
    intro w
    rw [List.foldl_cons, ih]
    cases gs with
    | nil => rfl
    | cons g2 gs2 =>
      rw [List.getLast?_cons_cons,
        List.getLast?_eq_getLast (g2 :: gs2) (by simp)]
      rfl

/-- The single-glyph scenario from the spec: mesh quad corners
(0,0), (1,0), (1,1), (0,1) with right edge 1, atlas quad corners
(0,0), (1/2,0), (1/2,1/2), (0,1/2). -/
def demoGlyph : Glyph :=
  ⟨⟨⟨![(0, 0), (1, 0), (1, 1), (0, 1)], 1⟩,
    ⟨![(0, 0), (1/2, 0), (1/2, 1/2), (0, 1/2)], 1/2⟩⟩⟩

/-- Claim C1: on a single-glyph input, `compute_buffers` returns 4
vertices but 24 indices, not the 6 the claim requires: the index-pattern
loop of the source runs once per vertex rather than once per glyph. -/
theorem compute_buffers_single_glyph_emits_24_indices :
    (compute_buffers [demoGlyph]).1.length = 4 ∧
      (compute_buffers [demoGlyph]).2.1.length = 24 := by decide

/-- Claim C2: the indices emitted for the single demo glyph are not the
pattern 0,1,2,2,3,0: the source emits the six-element pattern once per
vertex, each time based at the current vertex count, yielding 24 values. -/
theorem compute_buffers_single_glyph_index_values :
    (compute_buffers [demoGlyph]).2.1 =
      [0, 1, 2, 2, 3, 0,
       1, 2, 3, 3, 4, 1,
       2, 3, 4, 4, 5, 2,
       3, 4, 5, 5, 6, 3] := by decide

/-- Claim C3: on a single-glyph input the emitted index list contains the
value 6 while only 4 vertices exist, so not every index is below the
vertex count. -/
theorem compute_buffers_single_glyph_index_out_of_range :
    6 ∈ (compute_buffers [demoGlyph]).2.1 ∧
      (compute_buffers [demoGlyph]).1.length = 4 ∧
      ¬ (∀ i ∈ (compute_buffers [demoGlyph]).2.1,
          i < (compute_buffers [demoGlyph]).1.length) := by decide

/-- Claim C4: the vertex list of `compute_buffers` is, glyph by glyph, the
four corners in corner order, position taken from the `in_mesh` quad and
texture coordinate from the same-numbered corner of the `in_atlas` quad. -/
theorem compute_buffers_vertices_corner_aligned (gs : List Glyph) :
    (compute_buffers gs).1 =
      gs.flatMap (fun g =>
        [⟨g.layout.in_mesh.vertices 0, g.layout.in_atlas.vertices 0⟩,
         ⟨g.layout.in_mesh.vertices 1, g.layout.in_atlas.vertices 1⟩,
         ⟨g.layout.in_mesh.vertices 2, g.layout.in_atlas.vertices 2⟩,
         ⟨g.layout.in_mesh.vertices 3, g.layout.in_atlas.vertices 3⟩]) := by
  rw [compute_buffers_vertices]
  congr 1

/-- Claim C5: the width returned by `compute_buffers` is the `in_mesh`
right edge of the last glyph, and 0 for the empty sequence. -/
theorem compute_buffers_width_eq_last_right (gs : List Glyph) :
    (compute_buffers gs).2.2 =
      ((gs.getLast?).map (fun g => g.layout.in_mesh.right)).getD 0 := by
  rw [compute_buffers_width, foldl_const_update]

/-- The reference (spec-side) vertex-push step without the `as u16` cast:
identical to `pushQuadVertex` except that index values are kept as exact
naturals. Used to compare against to detect wraparound. -/
def pushQuadVertexUnwrapped (glyph : Glyph) (quad_vertex_index : Fin 4) :
    BuilderState → BuilderState
  | (vertices, indices, _width) =>
    (vertices ++
       [{ position := glyph.layout.in_mesh.vertices quad_vertex_index,
          texture_coordinate :=
            glyph.layout.in_atlas.vertices quad_vertex_index }],
     indices ++ trianglePattern.map (fun t => vertices.length + t),
     glyph.layout.in_mesh.right)

/-- The glyph loop of the cast-free reference computation. -/
def pushGlyphUnwrapped (state : BuilderState) (glyph : Glyph) : BuilderState :=
  (List.finRange 4).foldl (fun s i => pushQuadVertexUnwrapped glyph i s) state

/-- The cast-free reference computation: `compute_buffers` with the
`as u16` reduction removed, so its index list holds the exact intended
values. -/
def compute_buffers_unwrapped (glyphs : List Glyph) : BuilderState :=
  glyphs.foldl pushGlyphUnwrapped ([], [], 0)

/-- The six exact index values pushed for one vertex-push at running
vertex count `base`. -/
def quadIndexBlockU (base : ℕ) : List ℕ :=
  trianglePattern.map fun t => base + t

/-- All exact index values of `n` consecutive vertex-pushes from `base`. -/
def allIndicesU : ℕ → ℕ → List ℕ
  | _, 0 => []
  | base, n + 1 => quadIndexBlockU base ++ allIndicesU (base + 1) n

lemma pushGlyphUnwrapped_eq (V : List GlyphQuadVertex) (I : List ℕ) (w : ℚ)
    (g : Glyph) :
    pushGlyphUnwrapped (V, I, w) g =
      (V ++ glyphVertices g, I ++ allIndicesU V.length 4,
       g.layout.in_mesh.right) := by
  simp [pushGlyphUnwrapped, finRange_four, pushQuadVertexUnwrapped,
    glyphVertices, allIndicesU, quadIndexBlockU, List.append_assoc]

lemma allIndicesU_add (a : ℕ) :
    ∀ (base b : ℕ),
      allIndicesU base a ++ allIndicesU (base + a) b =
        allIndicesU base (a + b) := by
  induction a with
  | zero => intro base b; simp [allIndicesU]
  | succ n ih =>
    intro base b
    have h1 : base + (n + 1) = (base + 1) + n := by omega
    have h2 : n + 1 + b = (n + b) + 1 := by omega
    simp only [allIndicesU, List.append_assoc, h1, h2, ih]

lemma compute_loopU_eq (gs : List Glyph) :
    ∀ (V : List GlyphQuadVertex) (I : List ℕ) (w : ℚ),
      gs.foldl pushGlyphUnwrapped (V, I, w) =
        (V ++ gs.flatMap glyphVertices,
         I ++ allIndicesU V.length (4 * gs.length),
         gs.foldl (fun _ g => g.layout.in_mesh.right) w) := by
  induction gs with
  | nil => intro V I w; simp [allIndicesU]
  | cons g gs ih =>
    intro V I w
    rw [List.foldl_cons, pushGlyphUnwrapped_eq, ih]
    have hlen : (V ++ glyphVertices g).length = V.length + 4 := by
      simp [length_glyphVertices]
    have hmul : 4 * (g :: gs).length = 4 + 4 * gs.length := by
      simp [List.length_cons]; omega
    rw [hlen, hmul, ← allIndicesU_add 4 V.length (4 * gs.length)]
    simp [List.append_assoc]

lemma compute_buffers_unwrapped_indices (gs : List Glyph) :
    (compute_buffers_unwrapped gs).2.1 = allIndicesU 0 (4 * gs.length) := by
  rw [compute_buffers_unwrapped, compute_loopU_eq]; simp

lemma length_allIndicesU :
    ∀ (n base : ℕ), (allIndicesU base n).length = 6 * n := by
  intro n
  induction n with
  | zero => intro base; rfl
  | succ m ih =>
    intro base
    simp [allIndicesU, quadIndexBlockU, trianglePattern, ih]
    omega

lemma allIndices_eq_map_mod :
    ∀ (n base : ℕ),
      allIndices base n = (allIndicesU base n).map (· % 65536) := by
  intro n
  induction n with
  | zero => intro base; rfl
  | succ m ih =>
    intro base
    simp only [allIndices, allIndicesU, List.map_append, ih,
      quadIndexBlock, quadIndexBlockU, List.map_map]
    rfl

lemma allIndices_snoc :
    ∀ (n base : ℕ),
      allIndices base (n + 1) = allIndices base n ++ quadIndexBlock (base + n) := by
  intro n
  induction n with
  | zero => intro base; simp [allIndices]
  | succ m ih =>
    intro base
    have h : base + (m + 1) = (base + 1) + m := by omega
    rw [allIndices, ih (base + 1), allIndices, List.append_assoc, h]

lemma allIndicesU_snoc :
    ∀ (n base : ℕ),
      allIndicesU base (n + 1) =
        allIndicesU base n ++ quadIndexBlockU (base + n) := by
  intro n
  induction n with
  | zero => intro base; simp [allIndicesU]
  | succ m ih =>
    intro base
    have h : base + (m + 1) = (base + 1) + m := by omega
    rw [allIndicesU, ih (base + 1), allIndicesU, List.append_assoc, h]

/-- 16384 copies of the demo glyph: enough glyphs for the vertex count to
exceed 65535. -/
def wrapGlyphs : List Glyph := List.replicate 16384 demoGlyph

lemma wrapGlyphs_four_mul : 4 * wrapGlyphs.length = 65536 := by
  rw [wrapGlyphs, List.length_replicate]

/-- Claim C8 (amended): `compute_buffers` applies no bound check or
failure policy to its indices; every emitted index value is exactly the
corresponding untruncated running-vertex-count value reduced modulo
2 ^ 16, silently, for every input. -/
theorem compute_buffers_indices_silently_mod_65536 (gs : List Glyph) :
    (compute_buffers gs).2.1 =
      ((compute_buffers_unwrapped gs).2.1).map (· % 65536) := by
  rw [compute_buffers_indices, compute_buffers_unwrapped_indices,
    allIndices_eq_map_mod]

/-- Claim C8 (counterexample): on 16384 glyphs the vertex count, 65536,
exceeds 65535, and the emitted index list differs from the exact
(cast-free) index list: wraparound happened and nothing reported it. -/
theorem compute_buffers_wraps_at_16384_glyphs :
    (compute_buffers wrapGlyphs).1.length > 65535 ∧
      (compute_buffers wrapGlyphs).2.1 ≠
        (compute_buffers_unwrapped wrapGlyphs).2.1 := by
  constructor
  · rw [compute_buffers_vertices, length_flatMap_glyphVertices,
      wrapGlyphs_four_mul]
    omega
  · intro h
    rw [compute_buffers_indices, compute_buffers_unwrapped_indices,
      wrapGlyphs_four_mul] at h
    have h65536 : (65536 : ℕ) = 65535 + 1 := by norm_num
    rw [h65536, allIndices_snoc, allIndicesU_snoc] at h
    have hlen : (allIndices 0 65535).length = (allIndicesU 0 65535).length := by
      rw [length_allIndices, length_allIndicesU]
    obtain ⟨-, hblock⟩ := List.append_inj h hlen
    have : quadIndexBlock (0 + 65535) ≠ quadIndexBlockU (0 + 65535) := by
      decide
    exact this hblock

/-- Componentwise multiplication of two four-component vectors, as GLSL's
vec4 multiplication in the fragment shader. -/
def vec4Mul (a b : ℚ × ℚ × ℚ × ℚ) : ℚ × ℚ × ℚ × ℚ :=
  (a.1 * b.1, a.2.1 * b.2.1, a.2.2.1 * b.2.2.1, a.2.2.2 * b.2.2.2)

/-- The fragment shader main of `SolidTextProgram::new`, as a function of
the `fill` uniform and the red channel value sampled from the distance
field at the interpolated texture position: threshold the distance at 0.5
to 1 or 0, then output `fill * vec4(vec3(1.0), distance)`. -/
def fragmentMain (fill : ℚ × ℚ × ℚ × ℚ) (sampledRed : ℚ) : ℚ × ℚ × ℚ × ℚ :=
  let distance := sampledRed
  let distance : ℚ := if distance > 1/2 then 1 else 0
  vec4Mul fill (1, 1, 1, distance)

/-- Claim C6: the fragment stage outputs rgb equal to the fill's rgb
unconditionally and alpha equal to the fill's alpha when the sampled
distance exceeds 0.5 and 0 otherwise: a hard threshold, no smoothing. -/
theorem fragmentMain_hard_threshold (fill : ℚ × ℚ × ℚ × ℚ) (d : ℚ) :
    fragmentMain fill d =
      (fill.1, fill.2.1, fill.2.2.1,
       if d > 1/2 then fill.2.2.2 else 0) := by
  by_cases h : d > 1/2 <;> simp [fragmentMain, vec4Mul, h]

/-- The GLSL types named by the shader sources of `SolidTextProgram::new`.
`texture2d` is the (invalid) spelling the fragment source actually uses
for the sampler uniform; `sampler2D` is the type the wire contract
expects. -/
inductive GlslType where
  | vec2
  | vec4
  | mat4
  | sampler2D
  | texture2d
deriving DecidableEq

/-- The `in` declarations of the vertex shader source. -/
def vertexShaderAttributes : List (String × GlslType) :=
  [("position", GlslType.vec2), ("texture_coordinate", GlslType.vec2)]

/-- The `out` declarations of the vertex shader source. -/
def vertexShaderOutputs : List (String × GlslType) :=
  [("texture_position", GlslType.vec2)]

/-- The `uniform` declarations of the vertex shader source. -/
def vertexShaderUniforms : List (String × GlslType) :=
  [("transform", GlslType.mat4)]

/-- The `uniform` declarations of the fragment shader source: note the
sampler uniform is declared with the spelling `texture2d`. -/
def fragmentShaderUniforms : List (String × GlslType) :=
  [("fill", GlslType.vec4), ("distance_field", GlslType.texture2d)]

/-- The first line of both shader sources as the Rust raw string embeds
it: the `#` of a GLSL version directive is absent. -/
def shaderVersionLine : String := "version 330"

/-- Claim C7: the fragment shader declares the distance-field uniform
with the spelling `texture2d`, not `sampler2D` as the wire contract
requires, and the shader sources open with a version line missing the
leading `#`. -/
theorem solidTextProgram_uniform_divergence :
    ("distance_field", GlslType.texture2d) ∈ fragmentShaderUniforms ∧
      ("distance_field", GlslType.sampler2D) ∉ fragmentShaderUniforms ∧
      shaderVersionLine ≠ "#version 330" := by decide

/-- Modelled from the spec: the font collaborator. Its layout operation
is a pure function from the character sequence to laid-out glyphs. -/
structure Font where
  layout_glyphs : List Char → List Glyph

/-- The CPU-observable state of a `TextMesh`: the vertex buffer contents,
the index buffer contents and the cached width. -/
structure TextMesh where
  vertices : List GlyphQuadVertex
  indices : List ℕ
  width : ℚ

/-- `TextMesh::set`: recompute the buffers for the font and text and
overwrite the stored vertices, indices and width. -/
def TextMesh.set (_mesh : TextMesh) (font : Font) (text : List Char) :
    TextMesh :=
  let r := compute_buffers (font.layout_glyphs text)
  ⟨r.1, r.2.1, r.2.2⟩

/-- Claim C9: setting the same font and text twice leaves exactly the
state the first set produced: the recomputation is a pure function of
font and text, so the second overwrite writes identical contents. -/
theorem textMesh_set_idempotent (m : TextMesh) (font : Font)
    (text : List Char) :
    (m.set font text).set font text = m.set font text := rfl

/-- The pixel format of the uploaded atlas texture: `ClientFormat::U8`. -/
inductive ClientFormat where
  | U8
deriving DecidableEq

/-- glium's `RawImage2d` as `raw_u8_texture` fills it: borrowed byte
data, u32 dimensions, and a client format. -/
structure RawImage2d where
  data : List ℕ
  width : ℕ
  height : ℕ
  format : ClientFormat

/-- The `Atlas` consumed by `atlas_texture` (its type lives outside this
module): a distance-field byte buffer and a resolution. -/
structure Atlas where
  distance_field : List ℕ
  resolution : ℕ × ℕ

/-- `raw_u8_texture`, with glium's external `Texture2d::new` abstracted
as the function `texture2d_new` the facade provides: wrap the bytes in a
`RawImage2d` with the dimensions cast `as u32` (mod 2 ^ 32) and format
U8, and hand it to the texture constructor. -/
def raw_u8_texture {T : Type} (texture2d_new : RawImage2d → T)
    (atlas : List ℕ) (dimensions : ℕ × ℕ) : T :=
  texture2d_new
    ⟨atlas, dimensions.1 % 2 ^ 32, dimensions.2 % 2 ^ 32, ClientFormat.U8⟩

/-- `atlas_texture`: delegate to `raw_u8_texture` on the atlas's
distance-field bytes and resolution. -/
def atlas_texture {T : Type} (texture2d_new : RawImage2d → T)
    (atlas : Atlas) : T :=
  raw_u8_texture texture2d_new atlas.distance_field atlas.resolution

/-- Claim C10: `atlas_texture` returns exactly what `raw_u8_texture`
returns on the atlas's distance-field bytes and resolution, for every
texture constructor and atlas: it adds no validation or transformation. -/
theorem atlas_texture_eq_raw_u8_texture {T : Type}
    (texture2d_new : RawImage2d → T) (atlas : Atlas) :
    atlas_texture texture2d_new atlas =
      raw_u8_texture texture2d_new atlas.distance_field atlas.resolution :=
  rfl

end OrioleGlium
